import Mathlib

/-!
# Library GraphQL backend — resolver layer, shallow embedding

A shallow embedding of the resolver layer of `src/index.js` (the revision
with authentication, validation and subscriptions).  Records live in an
in-memory `Store`; each resolver is a Lean function from its arguments and
the store to a result, the updated store, and the trace of store/event-bus
effects it performed.  Machine-generated record ids are modelled by a
counter in the store.
-/

/-- An Author record: opaque id, name, optional birth year. -/
structure Author where
  id : Nat
  name : String
  born : Option Int
deriving DecidableEq, Repr

/-- A Book record; `author` is the id of the referenced Author record. -/
structure Book where
  id : Nat
  title : String
  published : Int
  author : Nat
  genres : List String
deriving DecidableEq, Repr

/-- A User record: opaque id, username, optional favorite genre. -/
structure User where
  id : Nat
  username : String
  favoriteGenre : Option String
deriving DecidableEq, Repr

/-- The entity store: the three record collections, plus a counter
standing in for the store's id generation. -/
structure Store where
  authors : List Author
  books : List Book
  users : List User
  nextId : Nat
deriving DecidableEq, Repr

/-- The error taxonomy of the resolver layer: `AuthenticationError`
("Unauthenticated"), `UserInputError` ("InvalidInput"), and an uncaught
JavaScript runtime error (unclassified). -/
inductive Err where
  | authentication (msg : String)
  | userInput (msg : String)
  | jsError (msg : String)
deriving DecidableEq, Repr

/-- One observable store or event-bus effect of a resolver run. -/
inductive Effect where
  | readBookByTitle (title : String)
  | readAuthorByName (name : String)
  | writeAuthor (a : Author)
  | writeBook (b : Book)
  | writeUser (u : User)
  | publish (topic : String) (payload : Book)
deriving DecidableEq, Repr

/-- Is the effect a store write? -/
def Effect.isWrite : Effect → Bool
  | .writeAuthor _ => true
  | .writeBook _ => true
  | .writeUser _ => true
  | _ => false

/-- Is the effect an event-bus publication? -/
def Effect.isPublish : Effect → Bool
  | .publish _ _ => true
  | _ => false

/-- The store writes of a trace. -/
def storeWrites (es : List Effect) : List Effect :=
  es.filter Effect.isWrite

/-- The publications of a trace. -/
def publications (es : List Effect) : List Effect :=
  es.filter Effect.isPublish

/-- `Book.findOne({ title: t })`. -/
def findOneBookByTitle (s : Store) (t : String) : Option Book :=
  s.books.find? (fun b => b.title = t)

/-- `Author.findOne({ name: n })`. -/
def findOneAuthorByName (s : Store) (n : String) : Option Author :=
  s.authors.find? (fun a => a.name = n)

/-- `User.findOne({ username: n })`. -/
def findOneUserByUsername (s : Store) (n : String) : Option User :=
  s.users.find? (fun u => u.username = n)

/-- `User.findById(i)`. -/
def findUserById (s : Store) (i : Nat) : Option User :=
  s.users.find? (fun u => u.id = i)

/-- `Book.collection.countDocuments()`. -/
def countBookDocuments (s : Store) : Nat :=
  s.books.length

/-- `Author.collection.countDocuments()`. -/
def countAuthorDocuments (s : Store) : Nat :=
  s.authors.length

/-- A Book with its author reference resolved, as produced by
`.populate("author")`. -/
structure PopulatedBook where
  id : Nat
  title : String
  published : Int
  author : Option Author
  genres : List String
deriving DecidableEq, Repr

/-- Resolve a Book's author reference against the store. -/
def populate (s : Store) (b : Book) : PopulatedBook :=
  { id := b.id
    title := b.title
    published := b.published
    author := s.authors.find? (fun a => a.id = b.author)
    genres := b.genres }

/-- Arguments of the `allBooks` query: both filters optional. -/
structure AllBooksArgs where
  author : Option String
  genre : Option String
deriving DecidableEq, Repr

/-- `Query.allBooks` as written in the source: the resolver ignores its
arguments and returns `Book.find({}).populate("author")`. -/
def Query.allBooks (_args : AllBooksArgs) (s : Store) : List PopulatedBook :=
  s.books.map (populate s)

/-- Does the book's resolved author have the given name? -/
def matchesAuthorName (s : Store) (f : Option String) (b : Book) : Bool :=
  match f with
  | none => true
  | some n =>
    match s.authors.find? (fun a => a.id = b.author) with
    | some a => a.name = n
    | none => false

/-- Does the book's genre list contain the given genre? -/
def matchesGenre (f : Option String) (b : Book) : Bool :=
  match f with
  | none => true
  | some g => b.genres.contains g

/-- Modelled from the spec: the `allBooks` behaviour the spec describes —
"filter Book records by optional author name and/or genre membership;
resolve each linked Author" — which is absent from the source resolver. -/
def allBooksSpec (args : AllBooksArgs) (s : Store) : List PopulatedBook :=
  (s.books.filter
      (fun b => matchesAuthorName s args.author b && matchesGenre args.genre b)).map
    (populate s)

/-- `Query.bookCount` as written in the source: the arrow-function body
`{ Book.collection.countDocuments(); }` evaluates the count but has no
return statement, so the resolver yields `undefined` (modelled `none`). -/
def Query.bookCount (s : Store) : Option Nat :=
  let _ := countBookDocuments s
  none

/-- `Query.authorCount`. -/
def Query.authorCount (s : Store) : Nat :=
  countAuthorDocuments s

/-- `Query.allAuthors`. -/
def Query.allAuthors (s : Store) : List Author :=
  s.authors

/-- `Query.me`: returns the request context's current user. -/
def Query.me (currentUser : Option User) : Option User :=
  currentUser

/-- `Author.bookCount`: `Book.find({ author: { $eq: root.id } })` and take
the length, against the store as it is at resolution time. -/
def Author.bookCount (s : Store) (root : Author) : Nat :=
  (s.books.filter (fun b => b.author = root.id)).length

/-- Arguments of the `addBook` mutation. -/
structure AddBookArgs where
  title : String
  published : Int
  author : String
  genres : List String
deriving DecidableEq, Repr

/-- The outcome of a mutation resolver: the returned value or error, the
store after the call, and the trace of effects in execution order. -/
structure MutRes (α : Type) where
  result : Except Err α
  store : Store
  trace : List Effect
deriving Repr

/-- `Mutation.addBook`, line for line: reject if unauthenticated; reject
titles of length ≤ 3 and author names of length ≤ 4; reject a title an
existing Book already has; find-or-create the Author by name; save the
Book; publish it to the BOOK_ADDED topic; return it. -/
def Mutation.addBook (currentUser : Option User) (args : AddBookArgs)
    (s : Store) : MutRes Book :=
  match currentUser with
  | none => ⟨.error (.authentication "Not authenticated"), s, []⟩
  | some _ =>
    if args.title.length ≤ 3 then
      ⟨.error (.userInput "Title must be at least 3 characters"), s, []⟩
    else if args.author.length ≤ 4 then
      ⟨.error (.userInput "Author name must be at least 4 characters"), s, []⟩
    else
      match findOneBookByTitle s args.title with
      | some _ =>
        ⟨.error (.userInput "Title must be unique"), s,
          [.readBookByTitle args.title]⟩
      | none =>
        match findOneAuthorByName s args.author with
        | some a =>
          let book : Book :=
            ⟨s.nextId, args.title, args.published, a.id, args.genres⟩
          ⟨.ok book,
            { s with books := s.books ++ [book], nextId := s.nextId + 1 },
            [.readBookByTitle args.title, .readAuthorByName args.author,
              .writeBook book, .publish "BOOK_ADDED" book]⟩
        | none =>
          let a : Author := ⟨s.nextId, args.author, none⟩
          let book : Book :=
            ⟨s.nextId + 1, args.title, args.published, a.id, args.genres⟩
          ⟨.ok book,
            { s with
                authors := s.authors ++ [a]
                books := s.books ++ [book]
                nextId := s.nextId + 2 },
            [.readBookByTitle args.title, .readAuthorByName args.author,
              .writeAuthor a, .writeBook book, .publish "BOOK_ADDED" book]⟩

/-- Arguments of the `editAuthor` mutation (`setBornTo: Int` is nullable
in the schema). -/
structure EditAuthorArgs where
  name : String
  setBornTo : Option Int
deriving DecidableEq, Repr

/-- Replace the author record carrying the given id. -/
def saveAuthor (s : Store) (a : Author) : Store :=
  { s with authors := s.authors.map (fun x => if x.id = a.id then a else x) }

/-- `Mutation.editAuthor`: reject if unauthenticated; find the Author by
name; set its birth year and save.  The source has no null guard, so when
no Author matches, `author.born = args.setBornTo` raises an uncaught
TypeError — outside the try/catch that wraps only `author.save()`. -/
def Mutation.editAuthor (currentUser : Option User) (args : EditAuthorArgs)
    (s : Store) : MutRes Author :=
  match currentUser with
  | none => ⟨.error (.authentication "Not authenticated"), s, []⟩
  | some _ =>
    match findOneAuthorByName s args.name with
    | none =>
      ⟨.error (.jsError "Cannot set property born of null"), s,
        [.readAuthorByName args.name]⟩
    | some a =>
      let a' : Author := { a with born := args.setBornTo }
      ⟨.ok a', saveAuthor s a',
        [.readAuthorByName args.name, .writeAuthor a']⟩

/-- Arguments of the `createUser` mutation. -/
structure CreateUserArgs where
  username : String
  favoriteGenre : Option String
deriving DecidableEq, Repr

/-- `Mutation.createUser`: builds `new User({ username: args.username })`
— the favoriteGenre argument is not passed — and saves it; the store's
unique-username constraint violation is surfaced as `UserInputError` with
the store's message. -/
def Mutation.createUser (args : CreateUserArgs) (s : Store) : MutRes User :=
  let user : User := ⟨s.nextId, args.username, none⟩
  if s.users.any (fun u => u.username = args.username) then
    ⟨.error (.userInput "duplicate key error: username"), s, []⟩
  else
    ⟨.ok user,
      { s with users := s.users ++ [user], nextId := s.nextId + 1 },
      [.writeUser user]⟩

/-- A signed token as produced by the external jwt library.  Modelled
from the spec: "an opaque signed string encoding \x7busername, user-id\x7d
... verified cryptographically on each request" — the payload together
with the secret it was signed with. -/
structure SignedToken where
  username : String
  userId : Nat
  signedWith : String
deriving DecidableEq, Repr

/-- The credential portion of an authorization header: either a
well-formed signed token or an undecodable string. -/
inductive Cred where
  | token (t : SignedToken)
  | garbage (s : String)
deriving DecidableEq, Repr

/-- `jwt.sign({ username, id }, secret)`. -/
def jwtSign (username : String) (userId : Nat) (secret : String) :
    SignedToken :=
  ⟨username, userId, secret⟩

/-- `jwt.verify(token, secret)`: succeeds exactly when the credential is
a token signed with the given secret; otherwise throws. -/
def jwtVerify (c : Cred) (secret : String) : Except String SignedToken :=
  match c with
  | .token t =>
    if t.signedWith = secret then .ok t else .error "invalid signature"
  | .garbage _ => .error "jwt malformed"

/-- Character-by-character ASCII lowercasing, the behaviour of
`toLowerCase()` on the header's scheme text. -/
def lowerStr (s : String) : String :=
  ⟨s.data.map Char.toLower⟩

/-- An authorization header value, split as the source consumes it: the
first seven characters (the scheme portion that
`auth.toLowerCase().startsWith("bearer ")` inspects and
`auth.substring(7)` strips) and the remaining credential. -/
structure AuthHeader where
  scheme7 : String
  cred : Cred
deriving DecidableEq, Repr

/-- Arguments of the `login` mutation. -/
structure LoginArgs where
  username : String
  password : String
deriving DecidableEq, Repr

/-- `Mutation.login`: find the User by username; fail with
`UserInputError("Wrong credentials")` if absent or the password differs
from the fixed string "secret"; otherwise sign and return a token over
the username and user id. -/
def Mutation.login (secret : String) (s : Store) (args : LoginArgs) :
    Except Err SignedToken :=
  match findOneUserByUsername s args.username with
  | none => .error (.userInput "Wrong credentials")
  | some u =>
    if args.password ≠ "secret" then .error (.userInput "Wrong credentials")
    else .ok (jwtSign u.username u.id secret)

/-- The per-request `context` function: no header yields an anonymous
context; a header whose first seven characters lowercase to "bearer "
has its remainder verified (an exception aborts the request, surfaced as
the error case); the decoded id is resolved by `User.findById`; any other
header value falls through the if and the context is anonymous. -/
def context (secret : String) (s : Store) (auth : Option AuthHeader) :
    Except String (Option User) :=
  match auth with
  | none => .ok none
  | some h =>
    if lowerStr h.scheme7 = "bearer " then
      match jwtVerify h.cred secret with
      | .error e => .error e
      | .ok t => .ok (findUserById s t.userId)
    else
      .ok none

/-! Concrete fixtures used by counterexamples and witnesses. -/

/-- The store with no records at all. -/
def emptyStore : Store := ⟨[], [], [], 0⟩

/-- A sample author. -/
def tolstoy : Author := ⟨0, "Leo Tolstoy", none⟩

/-- A sample book, referencing the sample author, with genre "classic". -/
def warAndPeace : Book := ⟨1, "War and Peace", 1869, 0, ["classic"]⟩

/-- A sample user. -/
def alice : User := ⟨2, "alice", none⟩

/-- A store holding one author, one book and one user. -/
def sampleStore : Store := ⟨[tolstoy], [warAndPeace], [alice], 3⟩

/-- Valid addBook arguments naming the existing sample author. -/
def kreutzerArgs : AddBookArgs :=
  ⟨"The Kreutzer Sonata", 1889, "Leo Tolstoy", ["classic"]⟩

/-- addBook arguments whose title is too short. -/
def shortTitleArgs : AddBookArgs := ⟨"ab", 2000, "Leo Tolstoy", []⟩

/-! Theorems, one per claim. -/

/-- C1 counterexample: with a genre filter that matches no book, the
spec-described allBooks would return the empty list, but the resolver as
written returns a non-empty one — the filter arguments are ignored. -/
theorem allBooks_filter_counterexample :
    allBooksSpec ⟨none, some "crime"⟩ sampleStore = [] ∧
    Query.allBooks ⟨none, some "crime"⟩ sampleStore ≠ [] := by
  decide

/-- C1 amended: allBooks ignores its optional author-name and genre
filters; for every call it returns exactly what the spec prescribes for
the filterless call — all Book records with each linked Author resolved
(the empty list, not an error, when the store has no books). -/
theorem allBooks_ignores_filters (args : AllBooksArgs) (s : Store) :
    Query.allBooks args s = allBooksSpec ⟨none, none⟩ s := by
  simp [Query.allBooks, allBooksSpec, matchesAuthorName, matchesGenre]

/-- C2: the bookCount resolver body computes the document count but has
no return statement, so a store holding one Book resolves bookCount to
undefined instead of the count 1 that the schema's non-null Int! and the
spec require. -/
theorem bookCount_returns_undefined :
    Query.bookCount sampleStore = none ∧ countBookDocuments sampleStore = 1 :=
  ⟨rfl, rfl⟩

/-- C5: addBook and editAuthor with no authenticated identity fail with
the authentication error, leave the store unchanged, and perform no
effect at all — no validation, store read, or store write — whatever the
arguments are. -/
theorem mutations_reject_unauthenticated (argsB : AddBookArgs)
    (argsE : EditAuthorArgs) (s : Store) :
    Mutation.addBook none argsB s =
      ⟨.error (.authentication "Not authenticated"), s, []⟩ ∧
    Mutation.editAuthor none argsE s =
      ⟨.error (.authentication "Not authenticated"), s, []⟩ :=
  ⟨rfl, rfl⟩

/-- C3: an authenticated addBook call whose title has length ≤ 3, or
whose author name has length ≤ 4, or whose title equals an existing
Book's title, fails with a user-input error, leaves the store unchanged,
and performs zero store writes, whatever the other arguments are. -/
theorem addBook_invalid_input_rejected (u : User) (args : AddBookArgs)
    (s : Store)
    (h : args.title.length ≤ 3 ∨ args.author.length ≤ 4 ∨
      (findOneBookByTitle s args.title).isSome = true) :
    (∃ msg, (Mutation.addBook (some u) args s).result =
      .error (.userInput msg)) ∧
    (Mutation.addBook (some u) args s).store = s ∧
    storeWrites (Mutation.addBook (some u) args s).trace = [] := by
  by_cases ht : args.title.length ≤ 3
  · refine ⟨⟨"Title must be at least 3 characters", ?_⟩, ?_, ?_⟩ <;>
      simp [Mutation.addBook, ht, storeWrites]
  · by_cases ha : args.author.length ≤ 4
    · refine ⟨⟨"Author name must be at least 4 characters", ?_⟩, ?_, ?_⟩ <;>
        simp [Mutation.addBook, ht, ha, storeWrites]
    · have hb : (findOneBookByTitle s args.title).isSome = true := by
        rcases h with h | h | h
        · exact absurd h ht
        · exact absurd h ha
        · exact h
      obtain ⟨b, hbe⟩ := Option.isSome_iff_exists.mp hb
      refine ⟨⟨"Title must be unique", ?_⟩, ?_, ?_⟩ <;>
        simp [Mutation.addBook, ht, ha, hbe, storeWrites, Effect.isWrite,
          List.filter]

/-- C3 witness: the generic rejection theorem applied to a concrete
short-titled call against the sample store. -/
theorem addBook_invalid_input_rejected_witness :
    (∃ msg, (Mutation.addBook (some alice) shortTitleArgs sampleStore).result =
      .error (.userInput msg)) ∧
    (Mutation.addBook (some alice) shortTitleArgs sampleStore).store =
      sampleStore ∧
    storeWrites
      (Mutation.addBook (some alice) shortTitleArgs sampleStore).trace = [] :=
  addBook_invalid_input_rejected alice shortTitleArgs sampleStore
    (Or.inl (by decide))

/-- C4: an authenticated addBook call passing all validations returns a
Book linked to an Author, present in the resulting store, whose name
equals the input author argument; when an Author of that name already
existed, the Book links to exactly that one; exactly one event, carrying
the returned Book, is published to the BOOK_ADDED topic, and it occurs
after the book write in the effect trace. -/
theorem addBook_success_links_author_and_publishes (u : User)
    (args : AddBookArgs) (s : Store)
    (ht : 3 < args.title.length) (ha : 4 < args.author.length)
    (hb : findOneBookByTitle s args.title = none) :
    ∃ bk,
      (Mutation.addBook (some u) args s).result = .ok bk ∧
      (∃ a, a ∈ (Mutation.addBook (some u) args s).store.authors ∧
        bk.author = a.id ∧ a.name = args.author) ∧
      (∀ a0, findOneAuthorByName s args.author = some a0 →
        bk.author = a0.id) ∧
      publications (Mutation.addBook (some u) args s).trace =
        [.publish "BOOK_ADDED" bk] ∧
      ∃ pre post,
        (Mutation.addBook (some u) args s).trace =
          pre ++ Effect.writeBook bk :: post ∧
        Effect.publish "BOOK_ADDED" bk ∈ post := by
  have ht' : ¬ args.title.length ≤ 3 := by omega
  have ha' : ¬ args.author.length ≤ 4 := by omega
  rcases hfa : findOneAuthorByName s args.author with _ | a
  · simp only [Mutation.addBook, hb, hfa, if_neg ht', if_neg ha']
    refine ⟨⟨s.nextId + 1, args.title, args.published, s.nextId, args.genres⟩,
      rfl, ⟨⟨s.nextId, args.author, none⟩, ?_, rfl, rfl⟩, ?_, ?_, ?_⟩
    · exact List.mem_append_right _ (List.mem_singleton.mpr rfl)
    · intro a0 h0
      exact absurd h0 (by simp)
    · rfl
    · exact ⟨[.readBookByTitle args.title, .readAuthorByName args.author,
        .writeAuthor ⟨s.nextId, args.author, none⟩],
        [.publish "BOOK_ADDED"
          ⟨s.nextId + 1, args.title, args.published, s.nextId, args.genres⟩],
        rfl, List.mem_singleton.mpr rfl⟩
  · have haname : a.name = args.author := by
      have := List.find?_some hfa
      simpa using this
    simp only [Mutation.addBook, hb, hfa, if_neg ht', if_neg ha']
    refine ⟨⟨s.nextId, args.title, args.published, a.id, args.genres⟩,
      rfl, ⟨a, List.mem_of_find?_eq_some hfa, rfl, haname⟩, ?_, ?_, ?_⟩
    · intro a0 h0
      cases h0
      rfl
    · rfl
    · exact ⟨[.readBookByTitle args.title, .readAuthorByName args.author],
        [.publish "BOOK_ADDED"
          ⟨s.nextId, args.title, args.published, a.id, args.genres⟩],
        rfl, List.mem_singleton.mpr rfl⟩

/-- C4 witness: the success theorem applied to a concrete valid call
naming the sample store's existing author. -/
theorem addBook_success_witness :
    ∃ bk,
      (Mutation.addBook (some alice) kreutzerArgs sampleStore).result =
        .ok bk ∧
      (∃ a, a ∈ (Mutation.addBook (some alice) kreutzerArgs
          sampleStore).store.authors ∧
        bk.author = a.id ∧ a.name = kreutzerArgs.author) ∧
      (∀ a0, findOneAuthorByName sampleStore kreutzerArgs.author = some a0 →
        bk.author = a0.id) ∧
      publications (Mutation.addBook (some alice) kreutzerArgs
          sampleStore).trace = [.publish "BOOK_ADDED" bk] ∧
      ∃ pre post,
        (Mutation.addBook (some alice) kreutzerArgs sampleStore).trace =
          pre ++ Effect.writeBook bk :: post ∧
        Effect.publish "BOOK_ADDED" bk ∈ post :=
  addBook_success_links_author_and_publishes alice kreutzerArgs sampleStore
    (by decide) (by decide) (by decide)

/-- C6 counterexample: a request carrying a present, unverifiable
credential under a non-bearer scheme is silently given an anonymous
context — it does not fail — contradicting "a present credential must
verify or the request fails, never silently proceeding anonymous". -/
theorem context_nonbearer_counterexample :
    context "topsecret" sampleStore
      (some ⟨"Token x", Cred.garbage "zzz"⟩) = .ok none ∧
    jwtVerify (Cred.garbage "zzz") "topsecret" = .error "jwt malformed" :=
  ⟨by simp [context, lowerStr], rfl⟩

/-- C6 amended: an absent credential yields an anonymous context, not an
error; a present credential whose scheme prefix lowercases to "bearer "
is verified against the process-wide secret — the request fails with the
verification error if it does not verify, and otherwise the context
holds the user the embedded id resolves to; a present credential without
the bearer prefix is silently treated as absent (anonymous context, no
verification). -/
theorem context_amended (secret : String) (s : Store)
    (auth : Option AuthHeader) :
    (auth = none → context secret s auth = .ok none) ∧
    (∀ h, auth = some h → lowerStr h.scheme7 = "bearer " →
      context secret s auth =
        (jwtVerify h.cred secret).map (fun t => findUserById s t.userId)) ∧
    (∀ h, auth = some h → lowerStr h.scheme7 ≠ "bearer " →
      context secret s auth = .ok none) := by
  refine ⟨?_, ?_, ?_⟩
  · intro hn
    rw [hn]
    rfl
  · intro h hs hbear
    rw [hs]
    simp only [context, if_pos hbear]
    cases jwtVerify h.cred secret <;> rfl
  · intro h hs hbear
    rw [hs]
    simp only [context, if_neg hbear]

/-- C6 witness: the amended context theorem applied to three concrete
requests — no header, a bearer header with an unverifiable credential,
and a non-bearer header. -/
theorem context_amended_witness :
    context "k" sampleStore none = .ok none ∧
    context "k" sampleStore (some ⟨"Bearer ", Cred.garbage "g"⟩) =
      .error "jwt malformed" ∧
    context "k" sampleStore (some ⟨"Token x", Cred.garbage "g"⟩) =
      .ok none := by
  refine ⟨(context_amended "k" sampleStore none).1 rfl, ?_, ?_⟩
  · have h2 := (context_amended "k" sampleStore
      (some ⟨"Bearer ", Cred.garbage "g"⟩)).2.1
      ⟨"Bearer ", Cred.garbage "g"⟩ rfl (by decide)
    exact h2.trans rfl
  · exact (context_amended "k" sampleStore
      (some ⟨"Token x", Cred.garbage "g"⟩)).2.2
      ⟨"Token x", Cred.garbage "g"⟩ rfl (by decide)

/-- C7: for an existing User in a store with unique usernames and ids,
login with that username and the fixed shared secret returns a token
which, presented under a bearer scheme on a later request, yields a
context on which the me query resolves to that same User; login with any
other password for that username, or with a username matching no User,
fails with InvalidInput "Wrong credentials". -/
theorem login_roundtrip (secret : String) (s : Store) (u : User)
    (hu : u ∈ s.users)
    (hname : ∀ v ∈ s.users, v.username = u.username → v = u)
    (hid : ∀ v ∈ s.users, v.id = u.id → v = u) :
    (∃ t cu, Mutation.login secret s ⟨u.username, "secret"⟩ = .ok t ∧
      context secret s (some ⟨"Bearer ", Cred.token t⟩) = .ok cu ∧
      Query.me cu = some u) ∧
    (∀ pw, pw ≠ "secret" →
      Mutation.login secret s ⟨u.username, pw⟩ =
        .error (.userInput "Wrong credentials")) ∧
    (∀ name pw, (∀ v ∈ s.users, v.username ≠ name) →
      Mutation.login secret s ⟨name, pw⟩ =
        .error (.userInput "Wrong credentials")) := by
  have hfind : findOneUserByUsername s u.username = some u := by
    have hsome : (s.users.find? (fun v => v.username = u.username)).isSome := by
      rw [List.find?_isSome]
      exact ⟨u, hu, by simp⟩
    obtain ⟨v, hv⟩ := Option.isSome_iff_exists.mp hsome
    have hvmem := List.mem_of_find?_eq_some hv
    have hvp : v.username = u.username := by simpa using List.find?_some hv
    rw [findOneUserByUsername, hv, hname v hvmem hvp]
  have hfid : findUserById s u.id = some u := by
    have hsome : (s.users.find? (fun v => v.id = u.id)).isSome := by
      rw [List.find?_isSome]
      exact ⟨u, hu, by simp⟩
    obtain ⟨v, hv⟩ := Option.isSome_iff_exists.mp hsome
    have hvmem := List.mem_of_find?_eq_some hv
    have hvp : v.id = u.id := by simpa using List.find?_some hv
    rw [findUserById, hv, hid v hvmem hvp]
  refine ⟨?_, ?_, ?_⟩
  · refine ⟨jwtSign u.username u.id secret, some u, ?_, ?_, rfl⟩
    · simp [Mutation.login, hfind]
    · simp only [context, jwtVerify, jwtSign]
      rw [if_pos (by decide)]
      simp [hfid]
  · intro pw hpw
    simp [Mutation.login, hfind, hpw]
  · intro name pw hnone
    have hn : findOneUserByUsername s name = none := by
      rw [findOneUserByUsername, List.find?_eq_none]
      intro v hv
      simp [hnone v hv]
    simp [Mutation.login, hn]

/-- C7 witness: the roundtrip theorem applied to the sample store's user
with the correct secret, with a wrong password, and with an unknown
username. -/
theorem login_roundtrip_witness :
    (∃ t cu, Mutation.login "k" sampleStore ⟨"alice", "secret"⟩ = .ok t ∧
      context "k" sampleStore (some ⟨"Bearer ", Cred.token t⟩) = .ok cu ∧
      Query.me cu = some alice) ∧
    Mutation.login "k" sampleStore ⟨"alice", "hunter2"⟩ =
      .error (.userInput "Wrong credentials") ∧
    Mutation.login "k" sampleStore ⟨"bob", "secret"⟩ =
      .error (.userInput "Wrong credentials") := by
  have T := login_roundtrip "k" sampleStore alice (by decide) (by decide)
    (by decide)
  exact ⟨T.1, T.2.1 "hunter2" (by decide), T.2.2 "bob" "secret" (by decide)⟩

/-- C8: for every store state and every Author returned by allAuthors,
the derived bookCount equals the number of Book records whose author
reference equals that Author's id; it is computed against the live store
on demand — adding one more Book referencing the Author increments it by
one, so it is never stale. -/
theorem author_bookCount_live (s : Store) (a : Author)
    (ha : a ∈ Query.allAuthors s) :
    Author.bookCount s a = s.books.countP (fun b => b.author = a.id) ∧
    ∀ b : Book, b.author = a.id →
      Author.bookCount { s with books := s.books ++ [b] } a =
        Author.bookCount s a + 1 := by
  refine ⟨?_, ?_⟩
  · simp [Author.bookCount, List.countP_eq_length_filter]
  · intro b hb
    simp [Author.bookCount, List.filter_append, hb]

/-- C8 witness: the bookCount theorem applied to the sample store's
author. -/
theorem author_bookCount_live_witness :
    Author.bookCount sampleStore tolstoy =
      sampleStore.books.countP (fun b => b.author = tolstoy.id) ∧
    ∀ b : Book, b.author = tolstoy.id →
      Author.bookCount { sampleStore with
        books := sampleStore.books ++ [b] } tolstoy =
        Author.bookCount sampleStore tolstoy + 1 :=
  author_bookCount_live sampleStore tolstoy (by decide)

/-- C9 counterexample: createUser called with a favoriteGenre argument
succeeds but returns a User whose favorite-genre label is absent — the
supplied label is not carried onto the record. -/
theorem createUser_drops_favoriteGenre :
    (Mutation.createUser ⟨"carol", some "fantasy"⟩ emptyStore).result =
      .ok ⟨0, "carol", none⟩ ∧
    (User.mk 0 "carol" none).favoriteGenre ≠ some "fantasy" :=
  ⟨rfl, by decide⟩

/-- C9 amended: every successfully created and returned User carries the
supplied username and sits in the store after the call, but its
favorite-genre label is always absent — the favoriteGenre argument is
ignored. -/
theorem createUser_stores_username_only (args : CreateUserArgs) (s : Store)
    (u : User) (h : (Mutation.createUser args s).result = .ok u) :
    u.username = args.username ∧ u.favoriteGenre = none ∧
    u ∈ (Mutation.createUser args s).store.users := by
  by_cases hdup : s.users.any (fun v => v.username = args.username)
  · simp [Mutation.createUser, hdup] at h
  · simp [Mutation.createUser, hdup] at h
    subst h
    refine ⟨rfl, rfl, ?_⟩
    simp [Mutation.createUser, hdup]

/-- C9 witness: the amended createUser theorem applied to a concrete
call that supplies a favorite genre. -/
theorem createUser_stores_username_only_witness :
    (User.mk 0 "carol" none).username =
      (CreateUserArgs.mk "carol" (some "fantasy")).username ∧
    (User.mk 0 "carol" none).favoriteGenre = none ∧
    User.mk 0 "carol" none ∈
      (Mutation.createUser ⟨"carol", some "fantasy"⟩ emptyStore).store.users :=
  createUser_stores_username_only ⟨"carol", some "fantasy"⟩ emptyStore
    ⟨0, "carol", none⟩ rfl

/-- C10: an authenticated editAuthor call naming no existing Author
fails with an uncaught error classified neither as authentication nor as
user-input failure, leaves the store — hence every Author record —
unchanged, and performs no store write. -/
theorem editAuthor_unknown_name (u : User) (args : EditAuthorArgs)
    (s : Store) (h : findOneAuthorByName s args.name = none) :
    (∃ msg, (Mutation.editAuthor (some u) args s).result =
      .error (.jsError msg)) ∧
    (∀ m, (Mutation.editAuthor (some u) args s).result ≠
      .error (.authentication m)) ∧
    (∀ m, (Mutation.editAuthor (some u) args s).result ≠
      .error (.userInput m)) ∧
    (Mutation.editAuthor (some u) args s).store = s ∧
    storeWrites (Mutation.editAuthor (some u) args s).trace = [] := by
  refine ⟨⟨"Cannot set property born of null", ?_⟩, ?_, ?_, ?_, ?_⟩ <;>
    simp [Mutation.editAuthor, h, storeWrites, Effect.isWrite, List.filter]

/-- C10 witness: the unknown-name theorem applied to a concrete call
naming an author absent from the sample store. -/
theorem editAuthor_unknown_name_witness :
    (∃ msg, (Mutation.editAuthor (some alice) ⟨"Nobody", none⟩
      sampleStore).result = .error (.jsError msg)) ∧
    (∀ m, (Mutation.editAuthor (some alice) ⟨"Nobody", none⟩
      sampleStore).result ≠ .error (.authentication m)) ∧
    (∀ m, (Mutation.editAuthor (some alice) ⟨"Nobody", none⟩
      sampleStore).result ≠ .error (.userInput m)) ∧
    (Mutation.editAuthor (some alice) ⟨"Nobody", none⟩ sampleStore).store =
      sampleStore ∧
    storeWrites (Mutation.editAuthor (some alice) ⟨"Nobody", none⟩
      sampleStore).trace = [] :=
  editAuthor_unknown_name alice ⟨"Nobody", none⟩ sampleStore (by decide)
